import Mathlib

/-!
Verification development for the file-timestamp-changer program
(src/file_timestamp_changer.py).

The development shallowly embeds the program:

* the date parser `parse_date_string` (source lines 122-154) is embedded as an
  executable function over `List Char`, modelling CPython `strptime` restricted
  to the nine format strings of the source: each numeric directive matches a
  maximal run of digits (the directives are always followed by a non-digit
  literal, whitespace, or end of input, so the regex alternation with
  backtracking used by `_strptime` is equivalent to this deterministic rule),
  the whole input must be consumed, and the `datetime` constructor validation
  (year range, days in month, second at most 59) is applied afterwards;
* the timestamp engine `get_file_timestamps` / `change_file_timestamp`
  (source lines 17-119) is embedded with an explicit environment `SysEnv`
  carrying the file system (a map from paths to timestamp triples) and fault
  flags for each OS call that can raise (open-for-read, open-for-write,
  `SetFileTime`, `pywintypes.Time` conversion).  `pywintypes.Time` applied to
  a valid datetime is modelled as the identity on the abstract instant type;
  `SetFileTime` is a single call and is modelled atomically.  A caught
  exception yields `Outcome.failure` (the function returns `False`); the
  `sys.exit(1)` inside `get_file_timestamps` yields `Outcome.exit1` /
  `ReadRes.exit1` (process termination, not a return);
* the flag-mode front end `mainFlags` (source `main`, lines 283-368, plus the
  `__main__` exit-code mapping of lines 371-373) and the interactive front end
  `interactive_mode` (lines 157-280) are embedded as functions of the input
  line script (`List String`); each call of `input()` consumes one line, and
  running out of lines is the `eof` outcome (an uncaught `EOFError`).
  Python string truthiness (`if source_file:` is false for both `None` and
  `""`) is modelled by `strTruthy`; `.strip()`, `.lower().startswith('y')`
  are modelled on the character lists of the strings.
-/

/-- A parsed date-and-time value, one field per `datetime` component used by
the program (second precision, as in the source). -/
structure DateTime where
  year : Nat
  month : Nat
  day : Nat
  hour : Nat
  minute : Nat
  second : Nat
deriving DecidableEq

/-- One directive of a `strptime` format string: a literal character,
whitespace, or one of the numeric directives `%Y %m %d %H %M %S` appearing in
the source's nine formats. -/
inductive Fmt
  | lit (c : Char)
  | ws
  | fY
  | fm
  | fd
  | fH
  | fM
  | fS
deriving DecidableEq

/-- Value of a run of decimal digit characters. -/
def digitsToNat (ds : List Char) : Nat :=
  ds.foldl (fun n c => 10 * n + (c.toNat - 48)) 0

/-- Match a one-or-two-digit numeric directive at the head of the input.
`ok1`/`ok2` are the value constraints of the directive's regex alternation for
one-digit and two-digit matches.  The directive consumes the maximal run of
digits; a run of length 0 or of length at least 3 fails (in `_strptime` the
following literal or whitespace cannot match a digit, so backtracking cannot
rescue such a run). -/
def matchNum (ok1 ok2 : Nat → Bool) (cs : List Char) : Option (Nat × List Char) :=
  let ds := cs.takeWhile Char.isDigit
  let rest := cs.dropWhile Char.isDigit
  let v := digitsToNat ds
  if ds.length = 1 then (if ok1 v then some (v, rest) else none)
  else if ds.length = 2 then (if ok2 v then some (v, rest) else none)
  else none

/-- Run a format over the input characters, starting from the `strptime`
default values (year 1900, month 1, day 1, midnight).  The whole input must be
consumed (`_strptime` raises when the regex match does not cover the full
string). -/
def runFmt : List Fmt → List Char → DateTime → Option DateTime
  | [], cs, dt => if cs.isEmpty then some dt else none
  | t :: ts, cs, dt =>
    match t with
    | .lit c =>
      match cs with
      | [] => none
      | c2 :: rest => if c2 = c then runFmt ts rest dt else none
    | .ws =>
      if (cs.takeWhile Char.isWhitespace).isEmpty then none
      else runFmt ts (cs.dropWhile Char.isWhitespace) dt
    | .fY =>
      let ds := cs.takeWhile Char.isDigit
      if ds.length = 4 then
        runFmt ts (cs.dropWhile Char.isDigit) { dt with year := digitsToNat ds }
      else none
    | .fm =>
      match matchNum (fun v => decide (1 ≤ v)) (fun v => decide (1 ≤ v ∧ v ≤ 12)) cs with
      | none => none
      | some (v, rest) => runFmt ts rest { dt with month := v }
    | .fd =>
      match matchNum (fun v => decide (1 ≤ v)) (fun v => decide (1 ≤ v ∧ v ≤ 31)) cs with
      | none => none
      | some (v, rest) => runFmt ts rest { dt with day := v }
    | .fH =>
      match matchNum (fun _ => true) (fun v => decide (v ≤ 23)) cs with
      | none => none
      | some (v, rest) => runFmt ts rest { dt with hour := v }
    | .fM =>
      match matchNum (fun _ => true) (fun v => decide (v ≤ 59)) cs with
      | none => none
      | some (v, rest) => runFmt ts rest { dt with minute := v }
    | .fS =>
      match matchNum (fun _ => true) (fun v => decide (v ≤ 61)) cs with
      | none => none
      | some (v, rest) => runFmt ts rest { dt with second := v }

/-- Gregorian leap-year rule, as used by `datetime`. -/
def isLeapYear (y : Nat) : Bool :=
  y % 4 == 0 && (y % 100 != 0 || y % 400 == 0)

/-- Number of days in a month, as used by the `datetime` constructor. -/
def daysInMonth (y m : Nat) : Nat :=
  if m = 2 then (if isLeapYear y then 29 else 28)
  else if m = 4 ∨ m = 6 ∨ m = 9 ∨ m = 11 then 30
  else 31

/-- The `datetime.datetime` constructor validation applied by `_strptime`
after the regex match: year in 1..9999, valid month/day combination, hour at
most 23, minute and second at most 59 (a regex-matched leap second 60 or 61
is rejected here). -/
def validCtor (dt : DateTime) : Bool :=
  decide (1 ≤ dt.year) && decide (dt.year ≤ 9999) &&
  decide (1 ≤ dt.month) && decide (dt.month ≤ 12) &&
  decide (1 ≤ dt.day) && decide (dt.day ≤ daysInMonth dt.year dt.month) &&
  decide (dt.hour ≤ 23) && decide (dt.minute ≤ 59) && decide (dt.second ≤ 59)

/-- `datetime.datetime.strptime(s, fmt)` for the formats used by the source:
`some` on success, `none` when the format does not match or the constructed
date is invalid (the `ValueError` caught by `parse_date_string`'s loop). -/
def strptime (fmt : List Fmt) (s : String) : Option DateTime :=
  match runFmt fmt s.data ⟨1900, 1, 1, 0, 0, 0⟩ with
  | none => none
  | some dt => if validCtor dt then some dt else none

/-- The source's format list (source lines 136-146), in source order. -/
def formats : List (List Fmt) :=
  [ [.fY, .lit '-', .fm, .lit '-', .fd, .ws, .fH, .lit ':', .fM, .lit ':', .fS]
  , [.fY, .lit '-', .fm, .lit '-', .fd, .ws, .fH, .lit ':', .fM]
  , [.fY, .lit '-', .fm, .lit '-', .fd]
  , [.fd, .lit '/', .fm, .lit '/', .fY, .ws, .fH, .lit ':', .fM, .lit ':', .fS]
  , [.fd, .lit '/', .fm, .lit '/', .fY, .ws, .fH, .lit ':', .fM]
  , [.fd, .lit '/', .fm, .lit '/', .fY]
  , [.fm, .lit '/', .fd, .lit '/', .fY, .ws, .fH, .lit ':', .fM, .lit ':', .fS]
  , [.fm, .lit '/', .fd, .lit '/', .fY, .ws, .fH, .lit ':', .fM]
  , [.fm, .lit '/', .fd, .lit '/', .fY]
  ]

/-- Modelled from the spec: the nine patterns of section 4.2 in the exact
order the spec lists them (`YYYY-MM-DD` family first, then `DD/MM/YYYY`,
then `MM/DD/YYYY`, each with seconds, minutes, then date-only variants). -/
def specFormats : List (List Fmt) :=
  [ [.fY, .lit '-', .fm, .lit '-', .fd, .ws, .fH, .lit ':', .fM, .lit ':', .fS]
  , [.fY, .lit '-', .fm, .lit '-', .fd, .ws, .fH, .lit ':', .fM]
  , [.fY, .lit '-', .fm, .lit '-', .fd]
  , [.fd, .lit '/', .fm, .lit '/', .fY, .ws, .fH, .lit ':', .fM, .lit ':', .fS]
  , [.fd, .lit '/', .fm, .lit '/', .fY, .ws, .fH, .lit ':', .fM]
  , [.fd, .lit '/', .fm, .lit '/', .fY]
  , [.fm, .lit '/', .fd, .lit '/', .fY, .ws, .fH, .lit ':', .fM, .lit ':', .fS]
  , [.fm, .lit '/', .fd, .lit '/', .fY, .ws, .fH, .lit ':', .fM]
  , [.fm, .lit '/', .fd, .lit '/', .fY]
  ]

/-- The source's `for fmt in formats: try ... except ValueError: continue`
loop: first successful format wins. -/
def tryFormats : List (List Fmt) → String → Option DateTime
  | [], _ => none
  | f :: fs, s =>
    match strptime f s with
    | some d => some d
    | none => tryFormats fs s

/-- `parse_date_string` (source lines 122-154): try the nine formats in
order, return the first successful parse, `None` when none matches. -/
def parse_date_string (s : String) : Option DateTime :=
  tryFormats formats s

example : parse_date_string "31/12/2021" = some ⟨2021, 12, 31, 0, 0, 0⟩ := by decide
example : parse_date_string "2021-12-31" = some ⟨2021, 12, 31, 0, 0, 0⟩ := by decide
example : parse_date_string "2021-06-15 10:00:00" = some ⟨2021, 6, 15, 10, 0, 0⟩ := by decide
example : parse_date_string "01/02/2021" = some ⟨2021, 2, 1, 0, 0, 0⟩ := by decide
example : parse_date_string "hello" = none := by decide
example : parse_date_string "2021-02-31" = none := by decide

/-- A file's timestamp triple: creation, last access, last modification.
The instant type `α` is abstract (the program stores `pywintypes.Time`
values; the parser produces `DateTime` values). -/
structure Triple (α : Type) where
  creation : α
  access : α
  modified : α
deriving DecidableEq

/-- The environment a run operates in: the file system (existing regular
files and their timestamp triples) plus fault flags for each OS call of the
source that can raise an exception — opening a file for reading
(`CreateFile` with `GENERIC_READ`, covering also `GetFileTime` failures),
opening for writing, `SetFileTime`, and the `pywintypes.Time` conversion of
a datetime. -/
structure SysEnv (α : Type) where
  fs : String → Option (Triple α)
  openReadFails : String → Bool
  openWriteFails : String → Bool
  setFileTimeFails : String → Bool
  timeConvFails : α → Bool

/-- Result of `get_file_timestamps`: the triple, or process termination
(`sys.exit(1)` at source line 44 — the function never returns an error to
its caller). -/
inductive ReadRes (α : Type)
  | ok (t : Triple α)
  | exit1
deriving DecidableEq

/-- Outcome of `change_file_timestamp`: returned `True`, returned `False`
(a caught exception), or terminated the process (the uncaught
`SystemExit` raised by `get_file_timestamps` on a source-read failure —
`sys.exit` raises `SystemExit`, which is not an `Exception`, so the
`except` clauses at source lines 114-119 do not catch it). -/
inductive Outcome
  | success
  | failure
  | exit1
deriving DecidableEq, BEq

/-- Python truthiness of an optional string: `None` and `""` are falsy. -/
def strTruthy : Option String → Bool
  | none => false
  | some s => !(s == "")

/-- `get_file_timestamps` (source lines 17-44): open the file read-only in
shared mode, fetch the three timestamps, close the handle.  Any exception
(missing file, denied access, other OS failure) is caught, an error is
printed, and the process is terminated with `sys.exit(1)`. -/
def get_file_timestamps {α : Type} (env : SysEnv α) (file_path : String) : ReadRes α :=
  match env.fs file_path with
  | none => .exit1
  | some t => if env.openReadFails file_path then .exit1 else .ok t

/-- The write phase of `change_file_timestamp` (source lines 98-112): open
the target exclusively for writing, call `SetFileTime` with the resolved
triple (one atomic metadata update), close the handle, return `True`.
Failures raise `pywintypes.error`, caught at line 114 → return `False`. -/
def writeTriple {α : Type} (env : SysEnv α) (file_path : String) (t : Triple α) :
    Outcome × SysEnv α :=
  if env.openWriteFails file_path then (.failure, env)
  else if env.setFileTimeFails file_path then (.failure, env)
  else (.success,
    { env with fs := fun q => if q = file_path then some t else env.fs q })

/-- `change_file_timestamp` (source lines 47-119): read the target's current
triple (lines 71-82, exception → caught → `False`); if `source_file` is
truthy, read the source's triple via `get_file_timestamps` (a failure there
terminates the process) and resolve the new triple field-wise by the three
change flags (lines 85-90); otherwise convert `new_date` with
`pywintypes.Time` (line 93, exception — including `new_date is None` —
caught → `False`) and resolve field-wise (lines 94-96); finally open the
target for writing and set the times (lines 99-112). -/
def change_file_timestamp {α : Type} (env : SysEnv α) (file_path : String)
    (new_date : Option α) (source_file : Option String)
    (change_creation change_access change_modified : Bool) : Outcome × SysEnv α :=
  match env.fs file_path with
  | none => (.failure, env)
  | some existing_times =>
    if env.openReadFails file_path then (.failure, env)
    else
      if strTruthy source_file then
        match get_file_timestamps env (source_file.getD "") with
        | .exit1 => (.exit1, env)
        | .ok source_times =>
          writeTriple env file_path
            ⟨ if change_creation then source_times.creation else existing_times.creation
            , if change_access then source_times.access else existing_times.access
            , if change_modified then source_times.modified else existing_times.modified ⟩
      else
        match new_date with
        | none => (.failure, env)
        | some win_time =>
          if env.timeConvFails win_time then (.failure, env)
          else
            writeTriple env file_path
              ⟨ if change_creation then win_time else existing_times.creation
              , if change_access then win_time else existing_times.access
              , if change_modified then win_time else existing_times.modified ⟩

/-- Python `str.strip()` on the character list: drop whitespace from both
ends. -/
def pyStrip (s : String) : String :=
  ⟨((s.data.dropWhile Char.isWhitespace).reverse.dropWhile Char.isWhitespace).reverse⟩

/-- Python `s.lower().startswith('y')`: the first character, lower-cased,
is `y`. -/
def pyLowerStartsY (s : String) : Bool :=
  match s.data with
  | [] => false
  | c :: _ => c.toLower == 'y'

/-- The parsed command-line arguments of flag mode (source lines 295-308):
`--file` is required; `--date` and `--source` are a mutually exclusive
required pair for `argparse`, but the values reaching `main`'s body are two
independent optionals; the three field flags are independent booleans. -/
structure Args where
  file : String
  date : Option String
  source : Option String
  creation : Bool
  access : Bool
  modified : Bool

/-- Field-flag resolution of `main` (source lines 333-340): if at least one
of the three flags is set, use them as given; if none is set, select all
three. -/
def resolveFlags (c a m : Bool) : Bool × Bool × Bool :=
  if c || a || m then (c, a, m) else (true, true, true)

/-- The datetime `main` passes to the engine (source lines 323-329): parse
`args.date` when it is truthy, otherwise leave `new_date = None`. -/
def resolvedDate (a : Args) : Option DateTime :=
  if strTruthy a.date then parse_date_string (a.date.getD "") else none

/-- Result of a front-end run: the boolean `main` returns, or process
termination from inside the engine. -/
inductive RunResult
  | ret (b : Bool)
  | exit1
deriving DecidableEq

/-- Flag mode of `main` (source lines 289-368): validate that the target
exists (line 313), that a truthy `--source` exists (line 318), and that a
truthy `--date` parses (lines 324-329), returning `False` on each
validation failure; then resolve the field flags and call
`change_file_timestamp`, returning its boolean (the success message
printing at lines 352-366 does not affect the result). -/
def mainFlags (env : SysEnv DateTime) (a : Args) : RunResult × SysEnv DateTime :=
  if (env.fs a.file).isNone then (.ret false, env)
  else if strTruthy a.source && (env.fs (a.source.getD "")).isNone then (.ret false, env)
  else if strTruthy a.date && (parse_date_string (a.date.getD "")).isNone then
    (.ret false, env)
  else
    let f := resolveFlags a.creation a.access a.modified
    match change_file_timestamp env a.file (resolvedDate a) a.source f.1 f.2.1 f.2.2 with
    | (.success, env2) => (.ret true, env2)
    | (.failure, env2) => (.ret false, env2)
    | (.exit1, env2) => (.exit1, env2)

/-- The `__main__` exit-code mapping (source lines 371-373):
`sys.exit(0 if success else 1)`; a run that already terminated inside the
engine exited with code 1. -/
def exitCodeOf : RunResult → Nat
  | .ret true => 0
  | .ret false => 1
  | .exit1 => 1

/-- Exit code of a flag-mode invocation. -/
def flagExitCode (env : SysEnv DateTime) (a : Args) : Nat :=
  exitCodeOf (mainFlags env a).1

/-- Result of one `input()` driven prompt step over the remaining script
lines: a value and the unconsumed lines, or end of input (an `EOFError`
that the source never catches). -/
inductive Prompted (β : Type)
  | eof
  | ok (val : β) (rest : List String)

/-- The target-file prompt loop (source lines 162-172): re-prompt while the
stripped input is empty or names no existing file. -/
def promptExistingFile {α : Type} (env : SysEnv α) : List String → Prompted String
  | [] => .eof
  | i :: rest =>
    let t := pyStrip i
    if t = "" then promptExistingFile env rest
    else if (env.fs t).isNone then promptExistingFile env rest
    else .ok t rest

/-- A 1-or-2 choice prompt loop (source lines 179-184 and 219-224):
re-prompt until the stripped input is `1` or `2`; returns `true` for `1`. -/
def promptChoice12 : List String → Prompted Bool
  | [] => .eof
  | i :: rest =>
    let c := pyStrip i
    if c = "1" then .ok true rest
    else if c = "2" then .ok false rest
    else promptChoice12 rest

/-- The date prompt loop (source lines 192-199): re-prompt until the
stripped input parses. -/
def promptDate : List String → Prompted DateTime
  | [] => .eof
  | i :: rest =>
    match parse_date_string (pyStrip i) with
    | some d => .ok d rest
    | none => promptDate rest

/-- One y/n question (source lines 231-233): consume one line, lower-case
it without stripping, test whether it starts with `y`. -/
def promptYn : List String → Prompted Bool
  | [] => .eof
  | i :: rest => .ok (pyLowerStartsY i) rest

/-- The field-selection step of interactive mode (source lines 214-233):
choice `1` selects all three fields; choice `2` asks three y/n questions,
one per field. -/
def promptFields : List String → Prompted (Bool × Bool × Bool)
  | inputs =>
    match promptChoice12 inputs with
    | .eof => .eof
    | .ok true rest => .ok (true, true, true) rest
    | .ok false rest =>
      match promptYn rest with
      | .eof => .eof
      | .ok c r1 =>
        match promptYn r1 with
        | .eof => .eof
        | .ok a r2 =>
          match promptYn r2 with
          | .eof => .eof
          | .ok m r3 => .ok (c, a, m) r3

/-- Result of an interactive-mode run: the boolean the call returns together
with the final environment and the unconsumed script lines; `cancelled`
marks the `return False` after printing `Operation cancelled by user.`
(source lines 254-257); `exit1` is process termination from inside the
engine; `eof` is an uncaught `EOFError` at some `input()`;
`fuelOut` is unreachable for the fuel `interactive_mode` supplies (every
loop iteration consumes at least the confirmation and continuation lines). -/
inductive InteractiveResult
  | ret (b : Bool) (env : SysEnv DateTime) (rest : List String)
  | cancelled (env : SysEnv DateTime) (rest : List String)
  | exit1 (env : SysEnv DateTime)
  | eof (env : SysEnv DateTime)
  | fuelOut

/-- Result of one iteration of the interactive loop, before the decision to
start another iteration: `done b env cont rest` records the engine's
boolean result `b`, the environment after the call, the answer `cont` to
the "perform another operation?" prompt and the unconsumed lines. -/
inductive StepRes
  | eof (env : SysEnv DateTime)
  | cancelled (env : SysEnv DateTime) (rest : List String)
  | exit1 (env : SysEnv DateTime)
  | done (b : Bool) (env : SysEnv DateTime) (cont : Bool) (rest : List String)

/-- One iteration of `interactive_mode` (source lines 157-276): prompt for
the target, the time source, the field selection and the confirmation; on a
declined confirmation return immediately (`cancelled`); otherwise run the
engine and read the answer to the "perform another operation?" prompt. -/
def interactiveStep (env : SysEnv DateTime) (inputs : List String) : StepRes :=
  match promptExistingFile env inputs with
  | .eof => .eof env
  | .ok target rest1 =>
    match promptChoice12 rest1 with
    | .eof => .eof env
    | .ok isDate rest2 =>
      let sourceStep : Prompted (Option DateTime × Option String) :=
        if isDate then
          match promptDate rest2 with
          | .eof => .eof
          | .ok d r => .ok (some d, none) r
        else
          match promptExistingFile env rest2 with
          | .eof => .eof
          | .ok s r => .ok (none, some s) r
      match sourceStep with
      | .eof => .eof env
      | .ok (new_date, source_file) rest3 =>
        match promptFields rest3 with
        | .eof => .eof env
        | .ok (cc, ca, cm) rest4 =>
          match rest4 with
          | [] => .eof env
          | confirm :: rest5 =>
            if !(pyLowerStartsY confirm) then .cancelled env rest5
            else
              match change_file_timestamp env target new_date source_file cc ca cm with
              | (.exit1, env2) => .exit1 env2
              | (out, env2) =>
                match rest5 with
                | [] => .eof env2
                | cont :: rest6 => .done (out == .success) env2 (pyLowerStartsY cont) rest6

/-- The interactive loop (source lines 157-280): run one iteration; the
source recurses into itself at line 278 when the operator answers the final
prompt affirmatively, and otherwise returns the iteration's boolean. -/
def interactiveGo : Nat → SysEnv DateTime → List String → InteractiveResult
  | 0, _, _ => .fuelOut
  | fuel + 1, env, inputs =>
    match interactiveStep env inputs with
    | .eof env2 => .eof env2
    | .cancelled env2 rest => .cancelled env2 rest
    | .exit1 env2 => .exit1 env2
    | .done _ env2 true rest => interactiveGo fuel env2 rest
    | .done b env2 false rest => .ret b env2 rest

/-- `interactive_mode` run on a script of input lines.  The fuel
`inputs.length + 1` bounds the recursion depth: each recursive call happens
after consuming at least one line. -/
def interactive_mode (env : SysEnv DateTime) (inputs : List String) : InteractiveResult :=
  interactiveGo (inputs.length + 1) env inputs

/-- Exit code of a whole interactive invocation: `main` returns the value of
`interactive_mode` (source line 287) and `__main__` maps it through
`sys.exit(0 if success else 1)`; a cancelled run returned `False`; process
termination inside the engine and an uncaught `EOFError` both exit
non-zero. -/
def interactiveExitCode : InteractiveResult → Nat
  | .ret true _ _ => 0
  | .ret false _ _ => 1
  | .cancelled _ _ => 1
  | .exit1 _ => 1
  | .eof _ => 1
  | .fuelOut => 1

/-- A fault-free environment over `Nat` instants with two files: `f` with
triple (1, 2, 3) and `s` with triple (4, 5, 6). -/
def envA : SysEnv Nat :=
  { fs := fun p => if p = "f" then some ⟨1, 2, 3⟩ else
      (if p = "s" then some ⟨4, 5, 6⟩ else none)
  , openReadFails := fun _ => false
  , openWriteFails := fun _ => false
  , setFileTimeFails := fun _ => false
  , timeConvFails := fun _ => false }

/-- `envA` with the write-open of `f` failing (access denied on the
exclusive `GENERIC_WRITE` handle). -/
def envB : SysEnv Nat :=
  { envA with openWriteFails := fun p => p == "f" }

/-- Three sample instants. -/
def dt0 : DateTime := ⟨2000, 1, 1, 0, 0, 0⟩

/-- Second sample instant. -/
def dt1 : DateTime := ⟨2000, 1, 2, 0, 0, 0⟩

/-- Third sample instant. -/
def dt2 : DateTime := ⟨2000, 1, 3, 0, 0, 0⟩

/-- A fault-free environment over `DateTime` instants with one file
`t.txt`. -/
def envC : SysEnv DateTime :=
  { fs := fun p => if p = "t.txt" then some ⟨dt0, dt1, dt2⟩ else none
  , openReadFails := fun _ => false
  , openWriteFails := fun _ => false
  , setFileTimeFails := fun _ => false
  , timeConvFails := fun _ => false }

/-- An environment with target `t.txt` and source `s.txt` where opening
`s.txt` for reading fails (access denied). -/
def envD : SysEnv DateTime :=
  { fs := fun p => if p = "t.txt" then some ⟨dt0, dt1, dt2⟩ else
      (if p = "s.txt" then some ⟨dt1, dt2, dt0⟩ else none)
  , openReadFails := fun p => p == "s.txt"
  , openWriteFails := fun _ => false
  , setFileTimeFails := fun _ => false
  , timeConvFails := fun _ => false }

/-- An environment where the target `t.txt` exists but opening it for
reading fails. -/
def envE : SysEnv DateTime :=
  { fs := fun p => if p = "t.txt" then some ⟨dt0, dt1, dt2⟩ else none
  , openReadFails := fun p => p == "t.txt"
  , openWriteFails := fun _ => false
  , setFileTimeFails := fun _ => false
  , timeConvFails := fun _ => false }

/-- A fault-free environment with one file `a.txt`, used for flag-mode
runs. -/
def envF : SysEnv DateTime :=
  { fs := fun p => if p = "a.txt" then some ⟨dt0, dt1, dt2⟩ else none
  , openReadFails := fun _ => false
  , openWriteFails := fun _ => false
  , setFileTimeFails := fun _ => false
  , timeConvFails := fun _ => false }

/-- If every format fails on `s`, the format loop returns `none`. -/
theorem tryFormats_eq_none (l : List (List Fmt)) (s : String)
    (h : ∀ f ∈ l, strptime f s = none) : tryFormats l s = none := by
  induction l with
  | nil => rfl
  | cons f fs ih =>
    unfold tryFormats
    rw [h f (List.mem_cons_self f fs)]
    exact ih (fun g hg => h g (List.mem_cons_of_mem f hg))

/-- A successful write updates exactly the target path with the given
triple. -/
theorem writeTriple_success {α : Type} (env : SysEnv α) (p : String) (t : Triple α)
    (h : (writeTriple env p t).1 = Outcome.success) :
    (writeTriple env p t).2.fs p = some t
    ∧ ∀ q, q ≠ p → (writeTriple env p t).2.fs q = env.fs q := by
  unfold writeTriple at h ⊢
  cases how : env.openWriteFails p with
  | true => rw [how] at h; simp at h
  | false =>
    cases hsf : env.setFileTimeFails p with
    | true => rw [how, hsf] at h; simp at h
    | false =>
      simp only [Bool.false_eq_true, if_false]
      constructor
      · simp
      · intro q hq
        simp [hq]

/-- A failed write leaves the environment untouched. -/
theorem writeTriple_fail {α : Type} (env : SysEnv α) (p : String) (t : Triple α)
    (h : (writeTriple env p t).1 ≠ Outcome.success) :
    (writeTriple env p t).2 = env := by
  unfold writeTriple at h ⊢
  cases how : env.openWriteFails p with
  | true => simp [how]
  | false =>
    cases hsf : env.setFileTimeFails p with
    | true => simp [how, hsf]
    | false => rw [how, hsf] at h; simp at h

/-- The write phase never terminates the process. -/
theorem writeTriple_no_exit {α : Type} (env : SysEnv α) (p : String) (t : Triple α) :
    (writeTriple env p t).1 ≠ Outcome.exit1 := by
  unfold writeTriple
  cases how : env.openWriteFails p with
  | true => simp
  | false =>
    cases hsf : env.setFileTimeFails p with
    | true => simp
    | false => simp

/-- Prompting for an existing file succeeds on the first line when its
stripped form is nonempty and names an existing file. -/
theorem promptExistingFile_cons_ok {α : Type} (env : SysEnv α) (i : String)
    (tv : Triple α) (rest : List String) (h1 : pyStrip i ≠ "")
    (h2 : env.fs (pyStrip i) = some tv) :
    promptExistingFile env (i :: rest) = .ok (pyStrip i) rest := by
  simp [promptExistingFile, h1, h2]

/-- The date prompt succeeds on the first line when it parses. -/
theorem promptDate_cons_ok (i : String) (d : DateTime) (rest : List String)
    (h : parse_date_string (pyStrip i) = some d) :
    promptDate (i :: rest) = .ok d rest := by
  simp [promptDate, h]

/-- A first line `1` answers a 1-or-2 choice prompt with choice 1. -/
theorem promptChoice12_one (l : List String) : promptChoice12 ("1" :: l) = .ok true l := by
  have h : pyStrip "1" = "1" := by decide
  simp [promptChoice12, h]

/-- A first line `1` selects all three fields. -/
theorem promptFields_one (l : List String) :
    promptFields ("1" :: l) = .ok (true, true, true) l := by
  simp [promptFields, promptChoice12_one]

/-- C6: `parse_date_string` tries the nine format patterns in the exact
order the spec lists and returns the first successful match; the ambiguous
slash date `01/02/2021` is read day-first, `31/12/2021` yields day 31 and
month 12, and a string matching no pattern yields `none` rather than an
error. -/
theorem parse_order_day_month_first :
    formats = specFormats
    ∧ parse_date_string "31/12/2021" = some ⟨2021, 12, 31, 0, 0, 0⟩
    ∧ parse_date_string "01/02/2021" = some ⟨2021, 2, 1, 0, 0, 0⟩
    ∧ ∀ s : String, (∀ f ∈ formats, strptime f s = none) → parse_date_string s = none := by
  refine ⟨rfl, by decide, by decide, ?_⟩
  intro s h
  exact tryFormats_eq_none formats s h

/-- Witness for C6: a string no pattern matches parses to `none`. -/
theorem parse_order_day_month_first_witness :
    parse_date_string "timestamp" = none :=
  parse_order_day_month_first.2.2.2 "timestamp" (by decide)

/-- C1: when `change_file_timestamp` with an explicit instant succeeds on an
existing target, every selected field of the target equals the instant,
every unselected field keeps its pre-call value, and no other file is
touched. -/
theorem explicit_date_write_updates_selected_preserves_rest
    {α : Type} (env : SysEnv α) (p : String) (T : α) (cc ca cm : Bool) (tr0 : Triple α)
    (hfs : env.fs p = some tr0)
    (hsucc : (change_file_timestamp env p (some T) none cc ca cm).1 = Outcome.success) :
    (change_file_timestamp env p (some T) none cc ca cm).2.fs p =
      some ⟨if cc then T else tr0.creation, if ca then T else tr0.access,
        if cm then T else tr0.modified⟩
    ∧ ∀ q, q ≠ p → (change_file_timestamp env p (some T) none cc ca cm).2.fs q = env.fs q := by
  cases hor : env.openReadFails p with
  | true =>
    exfalso
    simp [change_file_timestamp, hfs, hor] at hsucc
  | false =>
    cases htc : env.timeConvFails T with
    | true =>
      exfalso
      simp [change_file_timestamp, hfs, hor, htc, strTruthy] at hsucc
    | false =>
      have hw : (writeTriple env p ⟨if cc then T else tr0.creation,
          if ca then T else tr0.access, if cm then T else tr0.modified⟩).1
          = Outcome.success := by
        simpa [change_file_timestamp, hfs, hor, htc, strTruthy] using hsucc
      have h2 := writeTriple_success env p _ hw
      constructor
      · simpa [change_file_timestamp, hfs, hor, htc, strTruthy] using h2.1
      · intro q hq
        simpa [change_file_timestamp, hfs, hor, htc, strTruthy] using h2.2 q hq

/-- Witness for C1: in `envA`, setting `f` to instant 7 with selection
{creation, modification} yields triple (7, 2, 7). -/
theorem explicit_date_write_updates_selected_preserves_rest_witness :
    (change_file_timestamp envA "f" (some 7) none true false true).2.fs "f"
      = some ⟨7, 2, 7⟩ :=
  (explicit_date_write_updates_selected_preserves_rest envA "f" 7 true false true
    ⟨1, 2, 3⟩ rfl rfl).1

/-- C3 (amended): any non-successful run of `change_file_timestamp` leaves
the environment — in particular every timestamp field of the target —
exactly as it was, and the process-terminating outcome arises only from a
failure of `get_file_timestamps` on a truthy source file; such a failure
terminates the process instead of returning the failure result `False`. -/
theorem failed_operation_leaves_target_unchanged {α : Type} (env : SysEnv α) (p : String)
    (nd : Option α) (sf : Option String) (cc ca cm : Bool) :
    ((change_file_timestamp env p nd sf cc ca cm).1 ≠ Outcome.success →
      (change_file_timestamp env p nd sf cc ca cm).2 = env)
    ∧ ((change_file_timestamp env p nd sf cc ca cm).1 = Outcome.exit1 →
      strTruthy sf = true ∧ get_file_timestamps env (sf.getD "") = ReadRes.exit1) := by
  cases hfs : env.fs p with
  | none => simp [change_file_timestamp, hfs]
  | some tr0 =>
    cases hor : env.openReadFails p with
    | true => simp [change_file_timestamp, hfs, hor]
    | false =>
      cases hst : strTruthy sf with
      | true =>
        cases hg : get_file_timestamps env (sf.getD "") with
        | exit1 => simp [change_file_timestamp, hfs, hor, hst, hg]
        | ok st =>
          constructor
          · intro h
            have h2 : (writeTriple env p ⟨if cc then st.creation else tr0.creation,
                if ca then st.access else tr0.access,
                if cm then st.modified else tr0.modified⟩).1 ≠ Outcome.success := by
              simpa [change_file_timestamp, hfs, hor, hst, hg] using h
            have h3 := writeTriple_fail env p _ h2
            simpa [change_file_timestamp, hfs, hor, hst, hg] using h3
          · intro h
            exfalso
            have h2 : (writeTriple env p ⟨if cc then st.creation else tr0.creation,
                if ca then st.access else tr0.access,
                if cm then st.modified else tr0.modified⟩).1 = Outcome.exit1 := by
              simpa [change_file_timestamp, hfs, hor, hst, hg] using h
            exact writeTriple_no_exit env p _ h2
      | false =>
        cases nd with
        | none => simp [change_file_timestamp, hfs, hor, hst]
        | some T =>
          cases htc : env.timeConvFails T with
          | true => simp [change_file_timestamp, hfs, hor, hst, htc]
          | false =>
            constructor
            · intro h
              have h2 : (writeTriple env p ⟨if cc then T else tr0.creation,
                  if ca then T else tr0.access,
                  if cm then T else tr0.modified⟩).1 ≠ Outcome.success := by
                simpa [change_file_timestamp, hfs, hor, hst, htc] using h
              have h3 := writeTriple_fail env p _ h2
              simpa [change_file_timestamp, hfs, hor, hst, htc] using h3
            · intro h
              exfalso
              have h2 : (writeTriple env p ⟨if cc then T else tr0.creation,
                  if ca then T else tr0.access,
                  if cm then T else tr0.modified⟩).1 = Outcome.exit1 := by
                simpa [change_file_timestamp, hfs, hor, hst, htc] using h
              exact writeTriple_no_exit env p _ h2

/-- Witness for C3: calling the engine on the missing target `g` fails and
leaves the environment unchanged. -/
theorem failed_operation_leaves_target_unchanged_witness :
    (change_file_timestamp envA "g" (some 7) none true true true).2 = envA :=
  (failed_operation_leaves_target_unchanged envA "g" (some 7) none true true true).1
    (by decide)

/-- Counterexample for C3: with an existing target and a missing source,
`change_file_timestamp` does not abort with the failure result `False`; the
`sys.exit(1)` inside `get_file_timestamps` terminates the whole process
(the target is still unmodified). -/
theorem source_read_failure_terminates_process :
    change_file_timestamp envA "f" (some 7) (some "missing") true true true
      = (Outcome.exit1, envA)
    ∧ Outcome.exit1 ≠ Outcome.failure :=
  ⟨rfl, by decide⟩

/-- C7: when copying with all three fields selected succeeds, the target's
triple equals the source's triple as read at the time of the call. -/
theorem copy_all_fields_from_source {α : Type} (env : SysEnv α) (tgt src : String)
    (s0 : Triple α) (hsrc : env.fs src = some s0) (hne : src ≠ "")
    (hsucc : (change_file_timestamp env tgt none (some src) true true true).1
      = Outcome.success) :
    (change_file_timestamp env tgt none (some src) true true true).2.fs tgt = some s0 := by
  have hst : strTruthy (some src) = true := by simp [strTruthy, hne]
  cases hfs : env.fs tgt with
  | none =>
    exfalso
    simp [change_file_timestamp, hfs] at hsucc
  | some tr0 =>
    cases hor : env.openReadFails tgt with
    | true =>
      exfalso
      simp [change_file_timestamp, hfs, hor] at hsucc
    | false =>
      cases hors : env.openReadFails src with
      | true =>
        exfalso
        simp [change_file_timestamp, hfs, hor, hst, get_file_timestamps, hsrc, hors] at hsucc
      | false =>
        have hg : get_file_timestamps env src = ReadRes.ok s0 := by
          simp [get_file_timestamps, hsrc, hors]
        have hw : (writeTriple env tgt ⟨s0.creation, s0.access, s0.modified⟩).1
            = Outcome.success := by
          simpa [change_file_timestamp, hfs, hor, hst, hg] using hsucc
        have h2 := writeTriple_success env tgt _ hw
        simpa [change_file_timestamp, hfs, hor, hst, hg] using h2.1

/-- Witness for C7: copying from `s` onto `f` in `envA` makes `f` carry the
triple (4, 5, 6) of `s`. -/
theorem copy_all_fields_from_source_witness :
    (change_file_timestamp envA "f" none (some "s") true true true).2.fs "f"
      = some ⟨4, 5, 6⟩ :=
  copy_all_fields_from_source envA "f" "s" ⟨4, 5, 6⟩ rfl (by decide) rfl

/-- C9 (amended): when `source_file` is non-null and non-empty, the
copy-from-source branch is taken and `new_date` is ignored: the call's
result does not depend on `new_date` at all. -/
theorem truthy_source_ignores_new_date {α : Type} (env : SysEnv α) (p : String)
    (nd nd2 : Option α) (s : String) (cc ca cm : Bool) (hne : s ≠ "") :
    change_file_timestamp env p nd (some s) cc ca cm
      = change_file_timestamp env p nd2 (some s) cc ca cm := by
  have hst : strTruthy (some s) = true := by simp [strTruthy, hne]
  unfold change_file_timestamp
  cases env.fs p <;> simp [hst]

/-- Witness for C9: in `envA`, copying from `s` onto `f` gives the same
result whether `new_date` is supplied or not. -/
theorem truthy_source_ignores_new_date_witness :
    change_file_timestamp envA "f" (some 9) (some "s") true true true
      = change_file_timestamp envA "f" none (some "s") true true true :=
  truthy_source_ignores_new_date envA "f" (some 9) none "s" true true true (by decide)

/-- Counterexample for C9: with a non-null but empty `source_file` and a
non-null `new_date`, the date branch is used (the file receives the
explicit instant), not the copy-from-source branch — the empty-string
source names no file, so copy semantics could not have produced this. -/
theorem empty_string_source_uses_date :
    (change_file_timestamp envA "f" (some 7) (some "") true true true).1 = Outcome.success
    ∧ (change_file_timestamp envA "f" (some 7) (some "") true true true).2.fs "f"
      = some ⟨7, 7, 7⟩
    ∧ envA.fs "" = none :=
  ⟨rfl, rfl, rfl⟩

/-- C10: with all three change flags `False` the engine still runs the
write phase — an open-for-write failure makes the call fail — but the
triple it writes is the one read at the start of the call, so on success
every timestamp field (and every other file) is unchanged while the
operation reports success. -/
theorem all_flags_false_writes_original_triple {α : Type} (env : SysEnv α) (p : String)
    (T : α) (tr0 : Triple α) (hfs : env.fs p = some tr0)
    (hor : env.openReadFails p = false) (htc : env.timeConvFails T = false) :
    ((env.openWriteFails p = false → env.setFileTimeFails p = false →
        (change_file_timestamp env p (some T) none false false false).1 = Outcome.success
        ∧ ∀ q, (change_file_timestamp env p (some T) none false false false).2.fs q
          = env.fs q)
     ∧ (env.openWriteFails p = true →
        (change_file_timestamp env p (some T) none false false false).1
          = Outcome.failure)) := by
  constructor
  · intro how hsf
    have hcall : change_file_timestamp env p (some T) none false false false
        = (Outcome.success,
            { env with fs := fun q => if q = p then some tr0 else env.fs q }) := by
      simp [change_file_timestamp, hfs, hor, htc, strTruthy, writeTriple, how, hsf]
    constructor
    · rw [hcall]
    · intro q
      rw [hcall]
      by_cases hq : q = p
      · subst hq
        simp [hfs]
      · simp [hq]
  · intro how
    simp [change_file_timestamp, hfs, hor, htc, strTruthy, writeTriple, how]

/-- Witness for C10: in the fault-free `envA` the all-flags-false call
succeeds; in `envB`, whose write-open of `f` fails, the same call fails,
showing the write phase is executed. -/
theorem all_flags_false_writes_original_triple_witness :
    (change_file_timestamp envA "f" (some 7) none false false false).1 = Outcome.success
    ∧ (change_file_timestamp envB "f" (some 7) none false false false).1
      = Outcome.failure :=
  ⟨((all_flags_false_writes_original_triple envA "f" 7 ⟨1, 2, 3⟩ rfl rfl rfl).1 rfl rfl).1,
   (all_flags_false_writes_original_triple envB "f" 7 ⟨1, 2, 3⟩ rfl rfl rfl).2 rfl⟩

/-- C2 (amended): the empty-selection-means-all policy lives in flag mode
only: with no field flags, `main` selects all three fields, and with at
least one flag it passes the flags through unchanged.  Interactive mode
defaults to all three only through choice `1`; choosing `2` and answering
no to all three questions passes the all-`False` selection through to the
engine, and the engine treats an all-`False` selection as "change
nothing": it writes the existing triple back, leaving every file's
timestamps unchanged. -/
theorem empty_selection_default_all_flag_mode_only :
    resolveFlags false false false = (true, true, true)
    ∧ (∀ c a m : Bool, (c || a || m) = true → resolveFlags c a m = (c, a, m))
    ∧ (∀ rest : List String, promptFields ("1" :: rest) = .ok (true, true, true) rest)
    ∧ promptFields ["2", "n", "n", "n"] = .ok (false, false, false) []
    ∧ (∀ (α : Type) (env : SysEnv α) (p : String) (T : α) (q : String),
        (change_file_timestamp env p (some T) none false false false).2.fs q = env.fs q) := by
  refine ⟨rfl, ?_, fun rest => rfl, rfl, ?_⟩
  · intro c a m h
    simp [resolveFlags, h]
  · intro α env p T q
    cases hfs : env.fs p with
    | none => simp [change_file_timestamp, hfs]
    | some tr0 =>
      cases hor : env.openReadFails p with
      | true => simp [change_file_timestamp, hfs, hor]
      | false =>
        cases htc : env.timeConvFails T with
        | true => simp [change_file_timestamp, hfs, hor, htc, strTruthy]
        | false =>
          cases how : env.openWriteFails p with
          | true => simp [change_file_timestamp, hfs, hor, htc, strTruthy, writeTriple, how]
          | false =>
            cases hsf : env.setFileTimeFails p with
            | true =>
              simp [change_file_timestamp, hfs, hor, htc, strTruthy, writeTriple, how, hsf]
            | false =>
              by_cases hq : q = p
              · subst hq
                simp [change_file_timestamp, hfs, hor, htc, strTruthy, writeTriple, how, hsf]
              · simp [change_file_timestamp, hfs, hor, htc, strTruthy, writeTriple, how, hsf,
                  hq]

/-- Witness for C2 (amended): a set flag passes through unchanged, and an
all-`False` selection leaves the target's triple as it was. -/
theorem empty_selection_default_all_flag_mode_only_witness :
    resolveFlags true false false = (true, false, false)
    ∧ (change_file_timestamp envA "f" (some 7) none false false false).2.fs "f"
      = envA.fs "f" :=
  ⟨empty_selection_default_all_flag_mode_only.2.1 true false false rfl,
   empty_selection_default_all_flag_mode_only.2.2.2.2 Nat envA "f" 7 "f"⟩

/-- Counterexample for C2: at the engine, the empty selection does not
behave like the all-three selection — with an explicit instant 7 the
all-`False` call leaves the triple (1, 2, 3) while the all-`True` call
produces (7, 7, 7). -/
theorem engine_empty_selection_differs_from_full_selection :
    (change_file_timestamp envA "f" (some 7) none false false false).2.fs "f"
      = some ⟨1, 2, 3⟩
    ∧ (change_file_timestamp envA "f" (some 7) none true true true).2.fs "f"
      = some ⟨7, 7, 7⟩
    ∧ ((⟨1, 2, 3⟩ : Triple Nat) ≠ ⟨7, 7, 7⟩) :=
  ⟨rfl, rfl, by decide⟩

/-- C8: a flag-mode invocation exits with code 0 exactly when every
validation passes (existing target, existing truthy source, parseable
truthy date) and the engine call succeeds; every validation failure and
every engine error exits with code 1. -/
theorem flag_mode_exit_code_iff (env : SysEnv DateTime) (a : Args) :
    flagExitCode env a = 0 ↔
      ((env.fs a.file).isSome = true
       ∧ (strTruthy a.source = true → (env.fs (a.source.getD "")).isSome = true)
       ∧ (strTruthy a.date = true → (parse_date_string (a.date.getD "")).isSome = true)
       ∧ (change_file_timestamp env a.file (resolvedDate a) a.source
            (resolveFlags a.creation a.access a.modified).1
            (resolveFlags a.creation a.access a.modified).2.1
            (resolveFlags a.creation a.access a.modified).2.2).1 = Outcome.success) := by
  unfold flagExitCode mainFlags
  cases ho : env.fs a.file with
  | none => simp [exitCodeOf, ho]
  | some tr =>
    cases hs : strTruthy a.source with
    | true =>
      cases hsrc : env.fs (a.source.getD "") with
      | none => simp [exitCodeOf, ho, hs, hsrc]
      | some str =>
        cases hd : strTruthy a.date with
        | true =>
          cases hp : parse_date_string (a.date.getD "") with
          | none => simp [exitCodeOf, ho, hs, hsrc, hd, hp]
          | some d =>
            rcases hcall : change_file_timestamp env a.file (resolvedDate a) a.source
                (resolveFlags a.creation a.access a.modified).1
                (resolveFlags a.creation a.access a.modified).2.1
                (resolveFlags a.creation a.access a.modified).2.2 with ⟨out, env2⟩
            cases out <;> simp [exitCodeOf, ho, hs, hsrc, hd, hp, hcall]
        | false =>
          rcases hcall : change_file_timestamp env a.file (resolvedDate a) a.source
              (resolveFlags a.creation a.access a.modified).1
              (resolveFlags a.creation a.access a.modified).2.1
              (resolveFlags a.creation a.access a.modified).2.2 with ⟨out, env2⟩
          cases out <;> simp [exitCodeOf, ho, hs, hsrc, hd, hcall]
    | false =>
      cases hd : strTruthy a.date with
      | true =>
        cases hp : parse_date_string (a.date.getD "") with
        | none => simp [exitCodeOf, ho, hs, hd, hp]
        | some d =>
          rcases hcall : change_file_timestamp env a.file (resolvedDate a) a.source
              (resolveFlags a.creation a.access a.modified).1
              (resolveFlags a.creation a.access a.modified).2.1
              (resolveFlags a.creation a.access a.modified).2.2 with ⟨out, env2⟩
          cases out <;> simp [exitCodeOf, ho, hs, hd, hp, hcall]
      | false =>
        rcases hcall : change_file_timestamp env a.file (resolvedDate a) a.source
            (resolveFlags a.creation a.access a.modified).1
            (resolveFlags a.creation a.access a.modified).2.1
            (resolveFlags a.creation a.access a.modified).2.2 with ⟨out, env2⟩
        cases out <;> simp [exitCodeOf, ho, hs, hd, hcall]

/-- Witness for C8: the end-to-end flag run on `a.txt` with an explicit
date and no field flags exits with code 0. -/
theorem flag_mode_exit_code_iff_witness :
    flagExitCode envF
      { file := "a.txt", date := some "2021-06-15 10:00:00", source := none,
        creation := false, access := false, modified := false } = 0 :=
  (flag_mode_exit_code_iff envF
    { file := "a.txt", date := some "2021-06-15 10:00:00", source := none,
      creation := false, access := false, modified := false }).mpr
    ⟨by decide, by decide, by decide, by decide⟩

/-- C4 (amended): a confirmation response not starting with an affirmative
token performs no write and is reported via the cancellation notice, but it
ends the interactive session immediately with the return value `False`
(process exit code 1) instead of returning control to the "perform another
operation?" prompt — the remaining input lines are left unconsumed. -/
theorem declined_confirmation_no_write_no_continue
    (env : SysEnv DateTime) (tr0 : Triple DateTime) (confirm : String)
    (rest : List String) (htf : env.fs "t.txt" = some tr0)
    (hc : pyLowerStartsY confirm = false) :
    interactive_mode env ("t.txt" :: "1" :: "2021-01-02" :: "1" :: confirm :: rest)
      = .cancelled env rest := by
  have e1 : pyStrip "t.txt" = "t.txt" := by decide
  have hp1 : promptExistingFile env
      ("t.txt" :: "1" :: "2021-01-02" :: "1" :: confirm :: rest)
      = .ok "t.txt" ("1" :: "2021-01-02" :: "1" :: confirm :: rest) := by
    have h2 := promptExistingFile_cons_ok env "t.txt" tr0
      ("1" :: "2021-01-02" :: "1" :: confirm :: rest)
      (by rw [e1]; decide) (by rw [e1]; exact htf)
    rwa [e1] at h2
  have hp3 : promptDate ("2021-01-02" :: "1" :: confirm :: rest)
      = .ok ⟨2021, 1, 2, 0, 0, 0⟩ ("1" :: confirm :: rest) :=
    promptDate_cons_ok "2021-01-02" ⟨2021, 1, 2, 0, 0, 0⟩ ("1" :: confirm :: rest)
      (by decide)
  have hstep : interactiveStep env
      ("t.txt" :: "1" :: "2021-01-02" :: "1" :: confirm :: rest)
      = .cancelled env rest := by
    simp only [interactiveStep, hp1, promptChoice12_one, hp3, promptFields_one]
    simp [promptFields_one, hc]
  simp [interactive_mode, interactiveGo, hstep]

/-- Witness for C4 (amended): declining with `no` in `envC` cancels with no
write and ends the session. -/
theorem declined_confirmation_no_write_no_continue_witness :
    interactive_mode envC ["t.txt", "1", "2021-01-02", "1", "no"]
      = .cancelled envC [] :=
  declined_confirmation_no_write_no_continue envC ⟨dt0, dt1, dt2⟩ "no" [] rfl (by decide)

/-- Counterexample for C4: after declining the confirmation, the program
never asks the "perform another operation?" question — the affirmative
line `y` queued after the `n` is left unconsumed and the run ends as a
cancellation with process exit code 1, instead of control returning to the
top-level prompt. -/
theorem declined_confirmation_ends_program :
    interactive_mode envC ["t.txt", "1", "2021-01-02", "1", "n", "y"]
      = .cancelled envC ["y"]
    ∧ interactiveExitCode
        (interactive_mode envC ["t.txt", "1", "2021-01-02", "1", "n", "y"]) = 1 :=
  ⟨rfl, rfl⟩

/-- C5 (amended): `get_file_timestamps` never reports an error result to
its caller — on a missing file or a failing read-open it terminates the
process with exit code 1.  A failure reading the target inside
`change_file_timestamp`'s own `try` block, by contrast, returns `False`,
and interactive mode then proceeds to the "perform another operation?"
prompt, so only those failures abort just the current operation. -/
theorem read_error_exit_and_target_failure_recovery :
    (∀ (α : Type) (env : SysEnv α) (p : String),
        (env.fs p = none ∨ env.openReadFails p = true) →
        get_file_timestamps env p = ReadRes.exit1)
    ∧ (∀ (env : SysEnv DateTime) (tr0 : Triple DateTime) (cont : String)
        (rest : List String),
        env.fs "t.txt" = some tr0 → env.openReadFails "t.txt" = true →
        pyLowerStartsY cont = false →
        interactive_mode env
          ("t.txt" :: "1" :: "2021-01-02" :: "1" :: "y" :: cont :: rest)
          = .ret false env rest) := by
  constructor
  · intro α env p h
    rcases h with h | h
    · simp [get_file_timestamps, h]
    · cases hfs : env.fs p with
      | none => simp [get_file_timestamps, hfs]
      | some t => simp [get_file_timestamps, hfs, h]
  · intro env tr0 cont rest htf hor hc
    have e1 : pyStrip "t.txt" = "t.txt" := by decide
    have hp1 : promptExistingFile env
        ("t.txt" :: "1" :: "2021-01-02" :: "1" :: "y" :: cont :: rest)
        = .ok "t.txt" ("1" :: "2021-01-02" :: "1" :: "y" :: cont :: rest) := by
      have h2 := promptExistingFile_cons_ok env "t.txt" tr0
        ("1" :: "2021-01-02" :: "1" :: "y" :: cont :: rest)
        (by rw [e1]; decide) (by rw [e1]; exact htf)
      rwa [e1] at h2
    have hp3 : promptDate ("2021-01-02" :: "1" :: "y" :: cont :: rest)
        = .ok ⟨2021, 1, 2, 0, 0, 0⟩ ("1" :: "y" :: cont :: rest) :=
      promptDate_cons_ok "2021-01-02" ⟨2021, 1, 2, 0, 0, 0⟩ ("1" :: "y" :: cont :: rest)
        (by decide)
    have hcall : change_file_timestamp env "t.txt" (some ⟨2021, 1, 2, 0, 0, 0⟩) none
        true true true = (Outcome.failure, env) := by
      simp [change_file_timestamp, htf, hor]
    have hstep : interactiveStep env
        ("t.txt" :: "1" :: "2021-01-02" :: "1" :: "y" :: cont :: rest)
        = .done false env false rest := by
      simp only [interactiveStep, hp1, promptChoice12_one, hp3, promptFields_one]
      simp +decide [promptFields_one, hcall, hc]
    simp [interactive_mode, interactiveGo, hstep]

/-- Witness for C5 (amended): in `envE` a missing file terminates the
read, and a denied target read returns `False` with control reaching the
continuation prompt, whose `n` ends the session normally. -/
theorem read_error_exit_and_target_failure_recovery_witness :
    get_file_timestamps envE "missing" = ReadRes.exit1
    ∧ interactive_mode envE ["t.txt", "1", "2021-01-02", "1", "y", "n"]
      = .ret false envE [] :=
  ⟨read_error_exit_and_target_failure_recovery.1 DateTime envE "missing" (Or.inl rfl),
   read_error_exit_and_target_failure_recovery.2 envE ⟨dt0, dt1, dt2⟩ "n" [] rfl rfl
     (by decide)⟩

/-- Counterexample for C5: `get_file_timestamps` terminates the process on
a missing file and on a denied read-open instead of returning an error
result, and in interactive mode a denied source read therefore kills the
whole program rather than returning to the "perform another operation?"
prompt. -/
theorem get_file_timestamps_terminates_on_error :
    get_file_timestamps envD "missing.txt" = ReadRes.exit1
    ∧ get_file_timestamps envD "s.txt" = ReadRes.exit1
    ∧ interactive_mode envD ["t.txt", "2", "s.txt", "1", "y", "y"] = .exit1 envD :=
  ⟨rfl, rfl, rfl⟩
